import Mathlib

/-!
Verification development for the flake8-docstrings plugin
(`src/flake8_docstrings.py`): a shallow embedding of the module's logic —
the capability probe over the backend version, the error-wrapping classes
`EnvironError` and `AllError`, the class-level option binding
`parse_options`, the keyword assembly `_call_check_source`, the
exception-normalising generator `_check_source`, and the filtering
generator `run` — together with theorems settling the specified behavioral
claims.

The pydocstyle backend (`pep257.ConventionChecker.check_source`, the
`pep257.conventions` mapping, `re.compile`) is external to the repository
and is treated as a black box: its behavior enters as explicit parameters
(a delegate function, an association list of conventions, a compile
function), exactly as the spec treats it.
-/

/-! ## Python tuple comparison on version tuples

`pydocstyle_version` is a tuple of ints built from the version string; the
source compares it with `>=` against literal triples.  Python compares int
tuples lexicographically, a strict prefix being smaller. -/

/-- Python `<` on int tuples: lexicographic, a strict prefix is smaller. -/
def tupleLT : List Nat → List Nat → Bool
  | [], [] => false
  | [], _ :: _ => true
  | _ :: _, [] => false
  | a :: as, b :: bs => a < b || (a == b && tupleLT as bs)

/-- Python `>=` on int tuples: lexicographic. -/
def tupleGE : List Nat → List Nat → Bool
  | _, [] => true
  | [], _ :: _ => false
  | a :: as, b :: bs => b < a || (a == b && tupleGE as bs)

/-! ## Capability probe (module load time)

The module tries `import pydocstyle as pep257`; on success it parses the
version and sets three boolean flags by threshold comparison; on
`ImportError` it falls back to `import pep257` and the three flags keep
their initial value `False`. -/

/-- Which backend library the module-level import resolved: the preferred
`pydocstyle` (with its reported version as an int tuple) or the legacy
`pep257` fallback. -/
inductive Backend where
  | pydocstyle (version : List Nat)
  | pep257Legacy
deriving DecidableEq, Repr

/-- The three module-level capability flags of `flake8_docstrings.py`. -/
structure Flags where
  supports_ignore_inline_noqa : Bool
  supports_property_decorators : Bool
  supports_ignore_self_only_init : Bool
deriving DecidableEq, Repr

/-- Module initialization: the flags start `False`; when `pydocstyle`
resolves they are set by `pydocstyle_version >= (6, 0, 0)`,
`>= (6, 2, 0)`, `>= (6, 3, 0)`; when the legacy `pep257` is used the
`except ImportError` branch leaves all three `False`. -/
def flagsOf : Backend → Flags
  | .pydocstyle v =>
      { supports_ignore_inline_noqa := tupleGE v [6, 0, 0]
        supports_property_decorators := tupleGE v [6, 2, 0]
        supports_ignore_self_only_init := tupleGE v [6, 3, 0] }
  | .pep257Legacy =>
      { supports_ignore_inline_noqa := false
        supports_property_decorators := false
        supports_ignore_self_only_init := false }

/-! ## Errors and the two synthetic wrappers -/

/-- The observable interface of a `pep257.Error`: its `code`, its
`short_desc`, its `line`, plus whether the object is an instance of
`pep257.Error` at all (the source guards reporting with
`isinstance(error, pep257.Error)`). -/
structure Err where
  code : String
  short_desc : String
  line : Nat
  isPep257 : Bool
deriving DecidableEq, Repr

/-- `str(err).partition("\n")[0]`: the text before the first newline of a
message (the whole message when it has no newline). -/
def beforeFirstNewline (s : String) : String :=
  String.mk (s.data.takeWhile (fun c => c != '\n'))

/-- `EnvironError.__init__`: code `D998`, message `EnvironmentError: `
followed by the string form of the caught `OSError`, and `line` overridden
to `0`.  It subclasses `pep257.Error`. -/
def EnvironError (err : String) : Err :=
  { code := "D998"
    short_desc := "EnvironmentError: " ++ err
    line := 0
    isPep257 := true }

/-- `AllError.__init__`: code `D999`, message the text of the original
failure before its first newline, and `line` overridden to `0`.  It
subclasses `pep257.Error`. -/
def AllError (err : String) : Err :=
  { code := "D999"
    short_desc := beforeFirstNewline err
    line := 0
    isPep257 := true }

/-! ## The delegate `check_source` as a black box

`self.checker.check_source(...)` returns a generator.  Iterating it yields
a finite sequence of errors and then either finishes normally, raises
`pep257.AllError`, or raises an `OSError` (any other exception would
propagate, but the spec's backend contract surfaces only these two). -/

/-- How one full iteration of the delegate generator terminates. -/
inductive GenTerm where
  | normal
  | allError (msg : String)
  | osError (msg : String)
deriving DecidableEq, Repr

/-- One full iteration of the delegate generator: the errors yielded
before termination, and the termination itself. -/
structure GenOutcome where
  yielded : List Err
  term : GenTerm
deriving DecidableEq, Repr

/-- A compiled regular-expression object (`re.compile` result), opaque to
this component: only its identity matters here. -/
structure Pattern where
  src : String
deriving DecidableEq, Repr

/-- The optional keyword arguments assembled in `check_source_kwargs`:
each is present (`some`) exactly when inserted into the dict.  The
`property_decorators` value is itself optional (`None` when the raw string
is falsy, else the set split on commas). -/
structure Kwargs where
  ignore_inline_noqa : Option Bool
  property_decorators : Option (Option (List String))
  ignore_self_only_init : Option Bool
deriving DecidableEq, Repr

/-- The full argument set of one `self.checker.check_source(...)` call:
positional source and filename, the always-passed `ignore_decorators`
keyword (possibly `None`), and the capability-gated keywords. -/
structure CheckCall where
  source : String
  filename : String
  ignore_decorators : Option Pattern
  kwargs : Kwargs
deriving DecidableEq, Repr

/-- The behavior of the backend's `check_source` routine: a function from
the call's arguments to the generator's outcome. -/
def Delegate : Type := CheckCall → GenOutcome

/-! ## Class-level configuration state

`parse_options` is a classmethod writing class attributes; before it runs
the attributes do not exist (`hasattr` is false).  Each field is `none`
when the attribute is absent. -/

/-- The class-level attributes of `pep257Checker` that `parse_options`
may set.  `none` means the attribute was never set (absent). -/
structure ConfigState where
  convention : Option String
  ignore_decorators : Option (Option Pattern)
  property_decorators : Option String
  ignore_self_only_init : Option Bool
deriving DecidableEq, Repr

/-- The state of the class when `parse_options` was never invoked: no
attribute exists. -/
def unconfigured : ConfigState :=
  { convention := none
    ignore_decorators := none
    property_decorators := none
    ignore_self_only_init := none }

/-- The Python exceptions this development distinguishes: the
`AttributeError` from reading a class attribute that was never set, the
`KeyError` from `pep257.conventions[...]`, and `re.error` from
`re.compile`. -/
inductive PyExc where
  | attributeError (name : String)
  | keyError (key : String)
  | reError (msg : String)
deriving DecidableEq, Repr

/-- The parsed option values the host hands to `parse_options`
(`options.docstring_convention` etc.).  `ignore_decorators` defaults to
`None`; the last two fields are only read when the corresponding flag is
set. -/
structure Options where
  docstring_convention : String
  ignore_decorators : Option String
  property_decorators : String
  ignore_self_only_init : Bool
deriving DecidableEq, Repr

/-- Truthiness of `options.ignore_decorators` (a `str` or `None`): truthy
iff present and non-empty. -/
def truthyOptStr : Option String → Bool
  | none => false
  | some s => s != ""

/-- `pep257Checker.parse_options`: store the convention verbatim; compile
the ignore-decorators string when truthy, else store `None` (a malformed
pattern propagates `re.error`); store `property_decorators` and
`ignore_self_only_init` only under their flags.  `reCompile` is the
external `re.compile`. -/
def parse_options (flags : Flags) (reCompile : String → Except PyExc Pattern)
    (options : Options) : Except PyExc ConfigState := do
  let ign : Option Pattern ←
    if truthyOptStr options.ignore_decorators then
      match options.ignore_decorators with
      | some s => (reCompile s).map some
      | none => pure none
    else
      pure none
  return { convention := some options.docstring_convention
           ignore_decorators := some ign
           property_decorators :=
             if flags.supports_property_decorators then
               some options.property_decorators
             else none
           ignore_self_only_init :=
             if flags.supports_ignore_self_only_init then
               some options.ignore_self_only_init
             else none }

/-! ## The per-file checker instance -/

/-- The reference the fourth tuple component carries: `type(self)`, i.e.
the `pep257Checker` class itself. -/
inductive TypeRef where
  | pep257CheckerClass
deriving DecidableEq, Repr

/-- The instance attributes set by `pep257Checker.__init__`.  `Tree` is
the host's opaque parsed-file handle type (stored, never read);
`checker` is the fresh `pep257.ConventionChecker()` delegate, whose
behavior comes from the backend library. -/
structure pep257Checker (Tree : Type) where
  tree : Tree
  filename : String
  checker : Delegate
  source : String

/-- `pep257Checker.__init__(tree, filename, lines)`: store the handle and
the path, build a fresh delegate from the backend (`checkSourceImpl` is
the library's `check_source` behavior, shared by every fresh
`ConventionChecker()`), and join the lines into the source text. -/
def pep257Checker.init {Tree : Type} (checkSourceImpl : Delegate)
    (tree : Tree) (filename : String) (lines : List String) :
    pep257Checker Tree :=
  { tree := tree
    filename := filename
    checker := checkSourceImpl
    source := String.join lines }

/-- The `check_source_kwargs` assembly plus the call of
`pep257Checker._call_check_source`: each optional keyword is inserted only
under its capability flag; reading `self.property_decorators` or
`self.ignore_self_only_init` when the attribute was never set raises
`AttributeError`; `ignore_decorators` is read through `hasattr` and so
always passed, defaulting to `None`. -/
def _call_check_source {Tree : Type} (flags : Flags) (cfg : ConfigState)
    (c : pep257Checker Tree) : Except PyExc CheckCall := do
  let ignore_inline_noqa : Option Bool :=
    if flags.supports_ignore_inline_noqa then some true else none
  let property_decorators : Option (Option (List String)) ←
    if flags.supports_property_decorators then
      match cfg.property_decorators with
      | none => Except.error (.attributeError "property_decorators")
      | some raw =>
          pure (some (if raw != "" then some (raw.splitOn ",") else none))
    else pure none
  let ignore_self_only_init : Option Bool ←
    if flags.supports_ignore_self_only_init then
      match cfg.ignore_self_only_init with
      | none => Except.error (.attributeError "ignore_self_only_init")
      | some b => pure (some b)
    else pure none
  let ignore_decorators : Option Pattern :=
    match cfg.ignore_decorators with
    | none => none
    | some v => v
  return { source := c.source
           filename := c.filename
           ignore_decorators := ignore_decorators
           kwargs := { ignore_inline_noqa := ignore_inline_noqa
                       property_decorators := property_decorators
                       ignore_self_only_init := ignore_self_only_init } }

/-- `pep257Checker._check_source`: iterate the delegate generator,
re-yielding its errors; a `pep257.AllError` is caught and yielded as one
`AllError` wrapper, an `OSError` as one `EnvironError` wrapper; any other
exception (such as the `AttributeError` above) propagates. -/
def _check_source {Tree : Type} (flags : Flags) (cfg : ConfigState)
    (c : pep257Checker Tree) : Except PyExc (List Err) := do
  let call ← _call_check_source flags cfg c
  let out := c.checker call
  return out.yielded ++
    (match out.term with
     | .normal => []
     | .allError msg => [AllError msg]
     | .osError msg => [EnvironError msg])

/-! ## Checked-code filtering and `run` -/

/-- The value `run` binds to `checked_codes`: either the `_ContainsAll`
instance or a concrete code set (modelled as a list, used only through
membership). -/
inductive CheckedCodes where
  | containsAll
  | codeSet (codes : List String)
deriving DecidableEq, Repr

/-- Membership in `checked_codes`: `_ContainsAll.__contains__` returns
`True` for every code; a concrete set tests membership. -/
def CheckedCodes.mem : CheckedCodes → String → Bool
  | .containsAll, _ => true
  | .codeSet codes, code => codes.contains code

/-- The `checked_codes` computation at the top of `run`: without a bound
`convention` attribute, exactly the two synthetic codes; with the literal
`all`, the `_ContainsAll` instance; otherwise
`pep257.conventions[self.convention] | { D998, D999 }` (a missing key
raises `KeyError`).  `conventions` is the backend's mapping. -/
def checkedCodesOf (conventions : List (String × List String)) :
    Option String → Except PyExc CheckedCodes
  | none => .ok (.codeSet ["D998", "D999"])
  | some conv =>
      if conv == "all" then .ok .containsAll
      else
        match conventions.lookup conv with
        | some codes => .ok (.codeSet (codes ++ ["D998", "D999"]))
        | none => .error (.keyError conv)

/-- One normalized report tuple
`(error.line, 0, f"{error.code} {error.short_desc}", type(self))`. -/
structure ReportTuple where
  line : Nat
  col : Nat
  message : String
  origin : TypeRef
deriving DecidableEq, Repr

/-- The tuple `run` yields for an error that passed the filter. -/
def reportOf (e : Err) : ReportTuple :=
  { line := e.line
    col := 0
    message := e.code ++ " " ++ e.short_desc
    origin := .pep257CheckerClass }

/-- The filter in `run`'s loop:
`isinstance(error, pep257.Error) and error.code in checked_codes`. -/
def passesFilter (cc : CheckedCodes) (e : Err) : Bool :=
  e.isPep257 && cc.mem e.code

/-- `pep257Checker.run`, fully consumed: compute `checked_codes` from the
class-level `convention` attribute, iterate `_check_source`, and yield a
tuple for every error passing the filter.  An uncaught exception ends the
generator with no further tuples; the tuples yielded before it are lost to
the host only if it stops consuming, so the model returns the exception
itself (nothing was yielded before `_call_check_source` ran). -/
def pep257Checker.run {Tree : Type} (flags : Flags)
    (conventions : List (String × List String)) (cfg : ConfigState)
    (c : pep257Checker Tree) : Except PyExc (List ReportTuple) := do
  let checked_codes ← checkedCodesOf conventions cfg.convention
  let errs ← _check_source flags cfg c
  return (errs.filter (passesFilter checked_codes)).map reportOf

/-! ## Helper lemmas -/

/-- Python `>=` on int tuples is the negation of `<`: int tuples are
totally ordered. -/
lemma tupleGE_eq_not_tupleLT (a b : List Nat) :
    tupleGE a b = !tupleLT a b := by
  induction a generalizing b with
  | nil => cases b <;> simp [tupleGE, tupleLT]
  | cons x as ih =>
      cases b with
      | nil => simp [tupleGE, tupleLT]
      | cons y bs =>
          simp only [tupleGE, tupleLT, ih]
          by_cases hxy : x = y
          · subst hxy
            simp [Nat.lt_irrefl]
          · rcases Nat.lt_or_ge x y with h | h
            · simp [Nat.not_lt.mpr (Nat.le_of_lt h), h, hxy,
                Nat.ne_of_lt h]
            · rcases Nat.lt_or_ge y x with h2 | h2
              · simp [h2, Nat.not_lt.mpr (Nat.le_of_lt h2), hxy]
              · exact absurd (Nat.le_antisymm h2 h) hxy

/-- Every `checked_codes` value `run` can bind accepts the two synthetic
codes `D998` and `D999`. -/
lemma checkedCodesOf_mem_synthetic
    (conventions : List (String × List String)) (oc : Option String)
    (cc : CheckedCodes) (h : checkedCodesOf conventions oc = .ok cc) :
    cc.mem "D998" = true ∧ cc.mem "D999" = true := by
  cases oc with
  | none =>
      simp only [checkedCodesOf] at h
      cases h
      simp [CheckedCodes.mem, List.contains]
  | some conv =>
      simp only [checkedCodesOf] at h
      by_cases hall : conv == "all"
      · rw [if_pos hall] at h
        cases h
        simp [CheckedCodes.mem]
      · rw [if_neg hall] at h
        cases hlk : conventions.lookup conv with
        | none => rw [hlk] at h; cases h
        | some codes =>
            rw [hlk] at h
            cases h
            constructor <;> simp [CheckedCodes.mem]

/-- Unpack a successful `run` into the underlying `checked_codes` and
error list. -/
lemma run_ok_elim {Tree : Type} (flags : Flags)
    (conventions : List (String × List String)) (cfg : ConfigState)
    (c : pep257Checker Tree) (ts : List ReportTuple)
    (h : pep257Checker.run flags conventions cfg c = .ok ts) :
    ∃ cc errs, checkedCodesOf conventions cfg.convention = .ok cc ∧
      _check_source flags cfg c = .ok errs ∧
      ts = (errs.filter (passesFilter cc)).map reportOf := by
  unfold pep257Checker.run at h
  cases hcc : checkedCodesOf conventions cfg.convention with
  | error e => rw [hcc] at h; exact absurd h (by simp [Bind.bind, Except.bind])
  | ok cc =>
      rw [hcc] at h
      cases herrs : _check_source flags cfg c with
      | error e =>
          rw [herrs] at h
          exact absurd h (by simp [Bind.bind, Except.bind])
      | ok errs =>
          rw [herrs] at h
          simp only [Bind.bind, Except.bind, pure, Except.pure,
            Except.ok.injEq] at h
          exact ⟨cc, errs, rfl, rfl, h.symm⟩

/-! ## Claim theorems -/

/-- C5: every capability flag is a monotonic threshold function of the
resolved pydocstyle version — below its threshold (6.0.0 / 6.2.0 / 6.3.0
respectively) the flag is false, at or above it is true — and when the
legacy pep257 library is resolved instead, all three flags are false. -/
theorem capability_flags_monotonic :
    (∀ v : List Nat, tupleLT v [6, 0, 0] = true →
      (flagsOf (.pydocstyle v)).supports_ignore_inline_noqa = false) ∧
    (∀ v : List Nat, tupleGE v [6, 0, 0] = true →
      (flagsOf (.pydocstyle v)).supports_ignore_inline_noqa = true) ∧
    (∀ v : List Nat, tupleLT v [6, 2, 0] = true →
      (flagsOf (.pydocstyle v)).supports_property_decorators = false) ∧
    (∀ v : List Nat, tupleGE v [6, 2, 0] = true →
      (flagsOf (.pydocstyle v)).supports_property_decorators = true) ∧
    (∀ v : List Nat, tupleLT v [6, 3, 0] = true →
      (flagsOf (.pydocstyle v)).supports_ignore_self_only_init = false) ∧
    (∀ v : List Nat, tupleGE v [6, 3, 0] = true →
      (flagsOf (.pydocstyle v)).supports_ignore_self_only_init = true) ∧
    flagsOf .pep257Legacy = ⟨false, false, false⟩ := by
  refine ⟨?_, ?_, ?_, ?_, ?_, ?_, rfl⟩ <;>
    intro v h <;>
    simp only [flagsOf, tupleGE_eq_not_tupleLT] at h ⊢ <;>
    simp [h] at h ⊢

/-- C5 witness: concrete versions on both sides of each threshold, and
the legacy fallback. -/
theorem capability_flags_monotonic_witness :
    (tupleLT [5, 9, 9] [6, 0, 0] = true ∧
      (flagsOf (.pydocstyle [5, 9, 9])).supports_ignore_inline_noqa = false) ∧
    (tupleGE [6, 0, 0] [6, 0, 0] = true ∧
      (flagsOf (.pydocstyle [6, 0, 0])).supports_ignore_inline_noqa = true) ∧
    (tupleLT [6, 1, 9] [6, 2, 0] = true ∧
      (flagsOf (.pydocstyle [6, 1, 9])).supports_property_decorators = false) ∧
    (tupleGE [6, 2, 0] [6, 2, 0] = true ∧
      (flagsOf (.pydocstyle [6, 2, 0])).supports_property_decorators = true) ∧
    (tupleLT [6, 2, 9] [6, 3, 0] = true ∧
      (flagsOf (.pydocstyle [6, 2, 9])).supports_ignore_self_only_init = false) ∧
    (tupleGE [6, 3, 1] [6, 3, 0] = true ∧
      (flagsOf (.pydocstyle [6, 3, 1])).supports_ignore_self_only_init = true) :=
  ⟨⟨by decide, capability_flags_monotonic.1 [5, 9, 9] (by decide)⟩,
   ⟨by decide, capability_flags_monotonic.2.1 [6, 0, 0] (by decide)⟩,
   ⟨by decide, capability_flags_monotonic.2.2.1 [6, 1, 9] (by decide)⟩,
   ⟨by decide, capability_flags_monotonic.2.2.2.1 [6, 2, 0] (by decide)⟩,
   ⟨by decide, capability_flags_monotonic.2.2.2.2.1 [6, 2, 9] (by decide)⟩,
   ⟨by decide, capability_flags_monotonic.2.2.2.2.2.1 [6, 3, 1] (by decide)⟩⟩

/-- C7: option binding stores the ignore-decorators string compiled when
it is non-empty, stores `None` when it is empty or absent, and propagates
the compile error of a malformed pattern to the caller. -/
theorem parse_options_ignore_decorators :
    (∀ (flags : Flags) (rc : String → Except PyExc Pattern)
        (opts : Options),
      (opts.ignore_decorators = none ∨ opts.ignore_decorators = some "") →
      ∃ cfg, parse_options flags rc opts = .ok cfg ∧
        cfg.ignore_decorators = some none) ∧
    (∀ (flags : Flags) (rc : String → Except PyExc Pattern)
        (opts : Options) (s : String) (p : Pattern),
      opts.ignore_decorators = some s → s ≠ "" → rc s = .ok p →
      ∃ cfg, parse_options flags rc opts = .ok cfg ∧
        cfg.ignore_decorators = some (some p)) ∧
    (∀ (flags : Flags) (rc : String → Except PyExc Pattern)
        (opts : Options) (s : String) (e : PyExc),
      opts.ignore_decorators = some s → s ≠ "" → rc s = .error e →
      parse_options flags rc opts = .error e) := by
  refine ⟨?_, ?_, ?_⟩
  · intro flags rc opts h
    rcases h with h | h <;>
      simp [parse_options, truthyOptStr, h, pure, Except.pure, Bind.bind,
        Except.bind]
  · intro flags rc opts s p hs hne hrc
    simp [parse_options, truthyOptStr, hs, hne, hrc, pure, Except.pure,
      Bind.bind, Except.bind, Except.map]
  · intro flags rc opts s e hs hne hrc
    simp [parse_options, truthyOptStr, hs, hne, hrc, pure, Except.pure,
      Bind.bind, Except.bind, Except.map]

/-- C7 witness: an empty pattern is stored as `None`, a well-formed
pattern is stored compiled, and a malformed pattern propagates the
compile error, at concrete option values. -/
theorem parse_options_ignore_decorators_witness :
    ((Options.mk "pep257" none "property" false).ignore_decorators = none ∨
      (Options.mk "pep257" none "property" false).ignore_decorators =
        some "") ∧
    (∃ cfg, parse_options ⟨false, false, false⟩
        (fun s => .ok ⟨s⟩) (Options.mk "pep257" none "property" false) =
          .ok cfg ∧
      cfg.ignore_decorators = some none) ∧
    (∃ cfg, parse_options ⟨false, false, false⟩
        (fun s => .ok ⟨s⟩)
        (Options.mk "pep257" (some "wraps") "property" false) = .ok cfg ∧
      cfg.ignore_decorators = some (some ⟨"wraps"⟩)) ∧
    parse_options ⟨false, false, false⟩
        (fun s => .error (.reError ("bad: " ++ s)))
        (Options.mk "pep257" (some "(") "property" false) =
      .error (.reError "bad: (") :=
  ⟨Or.inl rfl,
   parse_options_ignore_decorators.1 ⟨false, false, false⟩
     (fun s => .ok ⟨s⟩) (Options.mk "pep257" none "property" false)
     (Or.inl rfl),
   parse_options_ignore_decorators.2.1 ⟨false, false, false⟩
     (fun s => .ok ⟨s⟩) (Options.mk "pep257" (some "wraps") "property" false)
     "wraps" ⟨"wraps"⟩ rfl (by decide) rfl,
   parse_options_ignore_decorators.2.2 ⟨false, false, false⟩
     (fun s => .error (.reError ("bad: " ++ s)))
     (Options.mk "pep257" (some "(") "property" false) "(" (.reError "bad: (")
     rfl (by decide) rfl⟩

/-- C6: a successful delegate invocation carries the optional keywords
`ignore_inline_noqa`, `property_decorators` and `ignore_self_only_init`
exactly when the corresponding capability flag is set, and always carries
the ignore-decorators pattern (absent when the attribute is absent or
`None`), so no keyword the resolved library cannot consume is passed. -/
theorem call_check_source_kwargs_gated {Tree : Type} (flags : Flags)
    (cfg : ConfigState) (c : pep257Checker Tree) (call : CheckCall)
    (h : _call_check_source flags cfg c = .ok call) :
    call.kwargs.ignore_inline_noqa.isSome =
      flags.supports_ignore_inline_noqa ∧
    call.kwargs.property_decorators.isSome =
      flags.supports_property_decorators ∧
    call.kwargs.ignore_self_only_init.isSome =
      flags.supports_ignore_self_only_init ∧
    call.ignore_decorators = cfg.ignore_decorators.join := by
  rcases flags with ⟨iin, pd, isoi⟩
  cases hp : cfg.property_decorators <;>
    cases hi : cfg.ignore_self_only_init <;>
    cases hd : cfg.ignore_decorators <;>
    cases iin <;> cases pd <;> cases isoi <;>
    simp_all [_call_check_source, Bind.bind, Except.bind, pure, Except.pure,
      Option.join] <;>
    simp [← h]

/-- C6 witness: a concrete invocation with all three flags set and a fully
bound configuration. -/
theorem call_check_source_kwargs_gated_witness :
    _call_check_source ⟨true, true, true⟩
        ⟨some "pep257", some (some ⟨"wraps"⟩), some "", some true⟩
        (pep257Checker.init (fun _ => ⟨[], .normal⟩) ()
          "f.py" ["x\n"]) =
      .ok { source := "x\n", filename := "f.py",
            ignore_decorators := some ⟨"wraps"⟩,
            kwargs := { ignore_inline_noqa := some true,
                        property_decorators := some none,
                        ignore_self_only_init := some true } } ∧
    ((Kwargs.mk (some true) (some none)
          (some true)).ignore_inline_noqa.isSome = true ∧
      (Kwargs.mk (some true) (some none)
          (some true)).property_decorators.isSome = true ∧
      (Kwargs.mk (some true) (some none)
          (some true)).ignore_self_only_init.isSome = true ∧
      (some (Pattern.mk "wraps") : Option Pattern) =
        (some (some (Pattern.mk "wraps")) : Option (Option Pattern)).join) :=
  ⟨by rfl,
   call_check_source_kwargs_gated ⟨true, true, true⟩
     ⟨some "pep257", some (some ⟨"wraps"⟩), some "", some true⟩
     (pep257Checker.init (fun _ => ⟨[], .normal⟩) ()
       "f.py" ["x\n"])
     { source := "x\n", filename := "f.py",
       ignore_decorators := some ⟨"wraps"⟩,
       kwargs := { ignore_inline_noqa := some true,
                   property_decorators := some none,
                   ignore_self_only_init := some true } }
     (by rfl)⟩

/-- C1: with a bound convention known to the backend and different from
`all`, every tuple `run` yields reports a code in the convention's code
set or one of the synthetic codes `D998`/`D999`; with the bound convention
`all`, no code-based filtering occurs and every error the backend
produces (each an instance of `pep257.Error`, per its contract) is
reported. -/
theorem run_codes_within_convention :
    (∀ (Tree : Type) (c : pep257Checker Tree) (flags : Flags)
        (conventions : List (String × List String)) (cfg : ConfigState)
        (conv : String) (codes : List String) (ts : List ReportTuple),
      cfg.convention = some conv → conv ≠ "all" →
      conventions.lookup conv = some codes →
      pep257Checker.run flags conventions cfg c = .ok ts →
      ∀ t ∈ ts, ∃ e : Err, t = reportOf e ∧
        (e.code ∈ codes ∨ e.code = "D998" ∨ e.code = "D999")) ∧
    (∀ (Tree : Type) (c : pep257Checker Tree) (flags : Flags)
        (conventions : List (String × List String)) (cfg : ConfigState)
        (errs : List Err),
      cfg.convention = some "all" →
      _check_source flags cfg c = .ok errs →
      (∀ e ∈ errs, e.isPep257 = true) →
      pep257Checker.run flags conventions cfg c = .ok (errs.map reportOf)) := by
  constructor
  · intro Tree c flags conventions cfg conv codes ts hconv hne hlk hrun t ht
    obtain ⟨cc, errs, hcc, herrs, hts⟩ :=
      run_ok_elim flags conventions cfg c ts hrun
    rw [hconv] at hcc
    simp only [checkedCodesOf] at hcc
    rw [if_neg (by simpa using hne), hlk] at hcc
    cases hcc
    subst hts
    simp only [List.mem_map] at ht
    obtain ⟨e, he, ht⟩ := ht
    rw [List.mem_filter] at he
    refine ⟨e, ht.symm, ?_⟩
    have hp := he.2
    simp only [passesFilter, CheckedCodes.mem, Bool.and_eq_true] at hp
    have := hp.2
    simp only [List.contains_iff_exists_mem_beq] at this
    obtain ⟨a, ha, hab⟩ := this
    rw [List.mem_append] at ha
    rcases ha with ha | ha
    · exact Or.inl (by rwa [eq_of_beq hab])
    · right
      rw [eq_of_beq hab]
      simpa using ha
  · intro Tree c flags conventions cfg errs hconv herrs hall
    unfold pep257Checker.run
    rw [hconv]
    simp only [checkedCodesOf, beq_self_eq_true, if_pos]
    rw [herrs]
    simp only [Bind.bind, Except.bind, pure, Except.pure, Except.ok.injEq]
    congr 1
    apply List.filter_eq_self.mpr
    intro e he
    simp [passesFilter, CheckedCodes.mem, hall e he]

/-- C1 witness: a two-code convention filters the backend's stray code but
keeps the convention code and a synthetic code; the `all` convention
reports everything. -/
theorem run_codes_within_convention_witness :
    ((ConfigState.mk (some "pep257") (some none) none none).convention =
        some "pep257" ∧ "pep257" ≠ "all" ∧
      [("pep257", ["D100", "D101"])].lookup "pep257" =
        some ["D100", "D101"] ∧
      pep257Checker.run ⟨false, false, false⟩ [("pep257", ["D100", "D101"])]
          (ConfigState.mk (some "pep257") (some none) none none)
          (pep257Checker.init
            (fun _ => ⟨[⟨"D100", "m", 2, true⟩, ⟨"D400", "x", 3, true⟩],
              .normal⟩) () "f.py" []) =
        .ok [reportOf ⟨"D100", "m", 2, true⟩] ∧
      (∀ t ∈ [reportOf (Err.mk "D100" "m" 2 true)], ∃ e : Err,
        t = reportOf e ∧
        (e.code ∈ ["D100", "D101"] ∨ e.code = "D998" ∨ e.code = "D999"))) ∧
    ((ConfigState.mk (some "all") (some none) none none).convention =
        some "all" ∧
      _check_source ⟨false, false, false⟩
          (ConfigState.mk (some "all") (some none) none none)
          (pep257Checker.init
            (fun _ => ⟨[⟨"D400", "x", 3, true⟩], .normal⟩) () "f.py" []) =
        .ok [⟨"D400", "x", 3, true⟩] ∧
      pep257Checker.run ⟨false, false, false⟩ [("pep257", ["D100", "D101"])]
          (ConfigState.mk (some "all") (some none) none none)
          (pep257Checker.init
            (fun _ => ⟨[⟨"D400", "x", 3, true⟩], .normal⟩) () "f.py" []) =
        .ok ([⟨"D400", "x", 3, true⟩].map reportOf)) :=
  ⟨⟨rfl, by decide, rfl, by rfl,
    run_codes_within_convention.1 Unit
      (pep257Checker.init
        (fun _ => ⟨[⟨"D100", "m", 2, true⟩, ⟨"D400", "x", 3, true⟩],
          .normal⟩) () "f.py" [])
      ⟨false, false, false⟩ [("pep257", ["D100", "D101"])]
      (ConfigState.mk (some "pep257") (some none) none none)
      "pep257" ["D100", "D101"] [reportOf ⟨"D100", "m", 2, true⟩]
      rfl (by decide) rfl (by rfl)⟩,
   rfl, by rfl,
   run_codes_within_convention.2 Unit
     (pep257Checker.init (fun _ => ⟨[⟨"D400", "x", 3, true⟩], .normal⟩) ()
       "f.py" [])
     ⟨false, false, false⟩ [("pep257", ["D100", "D101"])]
     (ConfigState.mk (some "all") (some none) none none)
     [⟨"D400", "x", 3, true⟩] rfl (by rfl) (by decide)⟩

/-- C2: when option binding never ran, the `checked_codes` value is
exactly the two-element synthetic set, and every tuple a successful `run`
yields carries one of the codes `D998`/`D999` — never a
convention-specific code. -/
theorem run_unconfigured_synthetic_only :
    (∀ conventions : List (String × List String),
      checkedCodesOf conventions unconfigured.convention =
        .ok (.codeSet ["D998", "D999"])) ∧
    (∀ (Tree : Type) (c : pep257Checker Tree) (flags : Flags)
        (conventions : List (String × List String)) (ts : List ReportTuple),
      pep257Checker.run flags conventions unconfigured c = .ok ts →
      ∀ t ∈ ts, ∃ e : Err, t = reportOf e ∧
        (e.code = "D998" ∨ e.code = "D999")) := by
  constructor
  · intro conventions
    rfl
  · intro Tree c flags conventions ts hrun t ht
    obtain ⟨cc, errs, hcc, herrs, hts⟩ :=
      run_ok_elim flags conventions unconfigured c ts hrun
    cases hcc
    subst hts
    simp only [List.mem_map] at ht
    obtain ⟨e, he, ht⟩ := ht
    rw [List.mem_filter] at he
    refine ⟨e, ht.symm, ?_⟩
    have hp := he.2
    simp only [passesFilter, CheckedCodes.mem, Bool.and_eq_true] at hp
    have := hp.2
    simp only [List.contains_iff_exists_mem_beq] at this
    obtain ⟨a, ha, hab⟩ := this
    rw [eq_of_beq hab]
    simpa using ha

/-- C2 witness: an unconfigured run drops a convention code and keeps a
synthetic one, at concrete inputs. -/
theorem run_unconfigured_synthetic_only_witness :
    checkedCodesOf [("pep257", ["D100"])] unconfigured.convention =
      .ok (.codeSet ["D998", "D999"]) ∧
    pep257Checker.run ⟨false, false, false⟩ [("pep257", ["D100"])]
        unconfigured
        (pep257Checker.init
          (fun _ => ⟨[⟨"D100", "m", 2, true⟩, ⟨"D999", "agg", 0, true⟩],
            .normal⟩) () "f.py" []) =
      .ok [reportOf ⟨"D999", "agg", 0, true⟩] ∧
    (∀ t ∈ [reportOf (Err.mk "D999" "agg" 0 true)], ∃ e : Err,
      t = reportOf e ∧ (e.code = "D998" ∨ e.code = "D999")) :=
  ⟨run_unconfigured_synthetic_only.1 [("pep257", ["D100"])], by rfl,
   run_unconfigured_synthetic_only.2 Unit
     (pep257Checker.init
       (fun _ => ⟨[⟨"D100", "m", 2, true⟩, ⟨"D999", "agg", 0, true⟩],
         .normal⟩) () "f.py" [])
     ⟨false, false, false⟩ [("pep257", ["D100"])]
     [reportOf ⟨"D999", "agg", 0, true⟩] (by rfl)⟩

/-- C3: when the delegate raises `pep257.AllError` after yielding some
errors, `run` reports the filtered yielded errors followed by exactly one
aggregate-failure record: line 0, code `D999`, message the text of the
original failure before its first newline. -/
theorem run_allError_single_record {Tree : Type} (flags : Flags)
    (conventions : List (String × List String)) (cfg : ConfigState)
    (c : pep257Checker Tree) (cc : CheckedCodes) (call : CheckCall)
    (errs : List Err) (msg : String)
    (hcc : checkedCodesOf conventions cfg.convention = .ok cc)
    (hcall : _call_check_source flags cfg c = .ok call)
    (hdel : c.checker call = ⟨errs, .allError msg⟩) :
    pep257Checker.run flags conventions cfg c =
      .ok ((errs.filter (passesFilter cc)).map reportOf ++
        [{ line := 0, col := 0,
           message := "D999 " ++ beforeFirstNewline msg,
           origin := .pep257CheckerClass }]) := by
  have hmem := (checkedCodesOf_mem_synthetic conventions cfg.convention cc
    hcc).2
  unfold pep257Checker.run _check_source
  rw [hcc, hcall]
  simp only [Bind.bind, Except.bind, pure, Except.pure]
  rw [hdel]
  simp only [Except.ok.injEq]
  rw [List.filter_append, List.map_append]
  congr 1
  simp [passesFilter, AllError, reportOf, hmem]

/-- C3 witness: a delegate yielding one error and then raising an
aggregate failure with a two-line message, under a bound convention. -/
theorem run_allError_single_record_witness :
    checkedCodesOf [("pep257", ["D100"])]
        (ConfigState.mk (some "pep257") (some none) none none).convention =
      .ok (.codeSet (["D100"] ++ ["D998", "D999"])) ∧
    _call_check_source ⟨false, false, false⟩
        (ConfigState.mk (some "pep257") (some none) none none)
        (pep257Checker.init
          (fun _ => ⟨[⟨"D100", "m", 2, true⟩], .allError "bad file\nrest"⟩)
          () "f.py" []) =
      .ok { source := "", filename := "f.py", ignore_decorators := none,
            kwargs := ⟨none, none, none⟩ } ∧
    pep257Checker.run ⟨false, false, false⟩ [("pep257", ["D100"])]
        (ConfigState.mk (some "pep257") (some none) none none)
        (pep257Checker.init
          (fun _ => ⟨[⟨"D100", "m", 2, true⟩], .allError "bad file\nrest"⟩)
          () "f.py" []) =
      .ok (([Err.mk "D100" "m" 2 true].filter
            (passesFilter (.codeSet (["D100"] ++ ["D998", "D999"])))).map
          reportOf ++
        [{ line := 0, col := 0,
           message := "D999 " ++ beforeFirstNewline "bad file\nrest",
           origin := .pep257CheckerClass }]) :=
  ⟨by rfl, by rfl,
   run_allError_single_record ⟨false, false, false⟩ [("pep257", ["D100"])]
     (ConfigState.mk (some "pep257") (some none) none none)
     (pep257Checker.init
       (fun _ => ⟨[⟨"D100", "m", 2, true⟩], .allError "bad file\nrest"⟩)
       () "f.py" [])
     (.codeSet (["D100"] ++ ["D998", "D999"]))
     { source := "", filename := "f.py", ignore_decorators := none,
       kwargs := ⟨none, none, none⟩ }
     [⟨"D100", "m", 2, true⟩] "bad file\nrest" (by rfl) (by rfl) (by rfl)⟩

/-- C4: when the delegate raises an `OSError`, `run` reports the filtered
yielded errors followed by exactly one environment-failure record: line 0,
code `D998`, message `EnvironmentError: ` followed by the string form of
the original error. -/
theorem run_osError_single_record {Tree : Type} (flags : Flags)
    (conventions : List (String × List String)) (cfg : ConfigState)
    (c : pep257Checker Tree) (cc : CheckedCodes) (call : CheckCall)
    (errs : List Err) (msg : String)
    (hcc : checkedCodesOf conventions cfg.convention = .ok cc)
    (hcall : _call_check_source flags cfg c = .ok call)
    (hdel : c.checker call = ⟨errs, .osError msg⟩) :
    pep257Checker.run flags conventions cfg c =
      .ok ((errs.filter (passesFilter cc)).map reportOf ++
        [{ line := 0, col := 0,
           message := "D998 " ++ ("EnvironmentError: " ++ msg),
           origin := .pep257CheckerClass }]) := by
  have hmem := (checkedCodesOf_mem_synthetic conventions cfg.convention cc
    hcc).1
  unfold pep257Checker.run _check_source
  rw [hcc, hcall]
  simp only [Bind.bind, Except.bind, pure, Except.pure]
  rw [hdel]
  simp only [Except.ok.injEq]
  rw [List.filter_append, List.map_append]
  congr 1
  simp [passesFilter, EnvironError, reportOf, hmem]

/-- C4 witness: a delegate raising an `OSError` at once, under the `all`
convention. -/
theorem run_osError_single_record_witness :
    checkedCodesOf [("pep257", ["D100"])]
        (ConfigState.mk (some "all") (some none) none none).convention =
      .ok .containsAll ∧
    _call_check_source ⟨false, false, false⟩
        (ConfigState.mk (some "all") (some none) none none)
        (pep257Checker.init
          (fun _ => ⟨[], .osError "file gone"⟩) () "f.py" []) =
      .ok { source := "", filename := "f.py", ignore_decorators := none,
            kwargs := ⟨none, none, none⟩ } ∧
    pep257Checker.run ⟨false, false, false⟩ [("pep257", ["D100"])]
        (ConfigState.mk (some "all") (some none) none none)
        (pep257Checker.init
          (fun _ => ⟨[], .osError "file gone"⟩) () "f.py" []) =
      .ok ((([] : List Err).filter (passesFilter .containsAll)).map
          reportOf ++
        [{ line := 0, col := 0,
           message := "D998 " ++ ("EnvironmentError: " ++ "file gone"),
           origin := .pep257CheckerClass }]) :=
  ⟨by rfl, by rfl,
   run_osError_single_record ⟨false, false, false⟩ [("pep257", ["D100"])]
     (ConfigState.mk (some "all") (some none) none none)
     (pep257Checker.init (fun _ => ⟨[], .osError "file gone"⟩) ()
       "f.py" [])
     .containsAll
     { source := "", filename := "f.py", ignore_decorators := none,
       kwargs := ⟨none, none, none⟩ }
     [] "file gone" (by rfl) (by rfl) (by rfl)⟩

/-- C8: every tuple `run` yields has the shape
`(error line, 0, "<code> <message>", type(self))`: in particular its
second component is 0 in every configuration. -/
theorem run_tuple_shape {Tree : Type} (flags : Flags)
    (conventions : List (String × List String)) (cfg : ConfigState)
    (c : pep257Checker Tree) (ts : List ReportTuple)
    (hrun : pep257Checker.run flags conventions cfg c = .ok ts) :
    ∀ t ∈ ts, t.col = 0 ∧ ∃ e : Err,
      t = { line := e.line, col := 0,
            message := e.code ++ " " ++ e.short_desc,
            origin := .pep257CheckerClass } := by
  intro t ht
  obtain ⟨cc, errs, hcc, herrs, hts⟩ :=
    run_ok_elim flags conventions cfg c ts hrun
  subst hts
  simp only [List.mem_map] at ht
  obtain ⟨e, he, hte⟩ := ht
  refine ⟨?_, e, ?_⟩ <;> rw [← hte] <;> rfl

/-- C8 witness: a concrete run whose single tuple has column 0 and the
normalized shape. -/
theorem run_tuple_shape_witness :
    pep257Checker.run ⟨false, false, false⟩ []
        unconfigured
        (pep257Checker.init
          (fun _ => ⟨[⟨"D998", "boom", 7, true⟩], .normal⟩) () "f.py" []) =
      .ok [reportOf ⟨"D998", "boom", 7, true⟩] ∧
    (∀ t ∈ [reportOf (Err.mk "D998" "boom" 7 true)], t.col = 0 ∧
      ∃ e : Err, t = { line := e.line, col := 0,
                       message := e.code ++ " " ++ e.short_desc,
                       origin := .pep257CheckerClass }) :=
  ⟨by rfl,
   run_tuple_shape ⟨false, false, false⟩ [] unconfigured
     (pep257Checker.init (fun _ => ⟨[⟨"D998", "boom", 7, true⟩], .normal⟩)
       () "f.py" [])
     [reportOf ⟨"D998", "boom", 7, true⟩] (by rfl)⟩

/-- C9: `run` is deterministic — two checker instances constructed from
identical source lines and file path (whatever their parsed-tree handles),
under the same configuration, conventions, flags and delegate behavior,
produce identical report sequences. -/
theorem run_deterministic (T₁ T₂ : Type) (impl : Delegate) (t₁ : T₁)
    (t₂ : T₂) (filename : String) (lines : List String) (flags : Flags)
    (conventions : List (String × List String)) (cfg : ConfigState) :
    pep257Checker.run flags conventions cfg
        (pep257Checker.init impl t₁ filename lines) =
      pep257Checker.run flags conventions cfg
        (pep257Checker.init impl t₂ filename lines) := rfl

/-- C10: with the property-decorators capability present (pydocstyle at or
above 6.2.0 resolved) and option binding never invoked, `run` raises the
`AttributeError` for the missing `property_decorators` attribute before
yielding any record, instead of converting it into a synthetic
`D998`/`D999` record. -/
theorem run_unconfigured_attribute_error {Tree : Type}
    (c : pep257Checker Tree) (conventions : List (String × List String))
    (v : List Nat) (h : tupleGE v [6, 2, 0] = true) :
    pep257Checker.run (flagsOf (.pydocstyle v)) conventions unconfigured
        c = .error (.attributeError "property_decorators") := by
  unfold pep257Checker.run _check_source _call_check_source
  simp [flagsOf, unconfigured, checkedCodesOf, h, Bind.bind, Except.bind,
    pure, Except.pure]

/-- C10 witness: pydocstyle 6.2.0 with no option binding, on a delegate
that would otherwise yield nothing. -/
theorem run_unconfigured_attribute_error_witness :
    tupleGE [6, 2, 0] [6, 2, 0] = true ∧
    pep257Checker.run (flagsOf (.pydocstyle [6, 2, 0])) []
        unconfigured
        (pep257Checker.init (fun _ => ⟨[], .normal⟩) ()
          "f.py" ["def f():\n", "    pass\n"]) =
      .error (.attributeError "property_decorators") :=
  ⟨by decide,
   run_unconfigured_attribute_error
     (pep257Checker.init (fun _ => ⟨[], .normal⟩) () "f.py"
       ["def f():\n", "    pass\n"])
     [] [6, 2, 0] (by decide)⟩
